/-
Verification of the terpene visual-vocabulary server core: a shallow
embedding of the taxonomy store and its pure query/derivation functions,
followed by theorems settling the specified properties.

Numeric adjustment and intensity values are modelled as rationals.
Fallible operations return an Except value whose error component is the
message of the structured error record the source produces.
-/
import Mathlib

namespace TerpeneVocab

/-- One temporal stage record of a terpene. -/
structure StageRecord where
  duration : String
  description : String
  saturation_adjustment : ℚ
  luminosity_adjustment : ℚ
  edge_quality : String
deriving Repr, DecidableEq

/-- The four temporal stages, in the fixed order fresh, active, fading, traces. -/
structure Stages where
  fresh : StageRecord
  active : StageRecord
  fading : StageRecord
  traces : StageRecord
deriving Repr, DecidableEq

/-- The color_specs mapping of a terpene record. -/
structure ColorSpecs where
  primary_palette : String
  saturation : String
  luminosity : String
  boundaries : String
  secondary_accents : String
  color_quality : String
deriving Repr, DecidableEq

/-- The temporal_qualities sub-record of a terpene record. -/
structure TemporalQualities where
  volatility : String
  persistence : String
  stages : Stages
deriving Repr, DecidableEq

/-- A full terpene record, one entry of the TERPENES table. -/
structure Terpene where
  name : String
  molecular_formula : String
  classification : String
  scent_profile : String
  visual_character : String
  primary_colors : List String
  color_specs : ColorSpecs
  composition : String
  temporal_qualities : TemporalQualities
  master_prompt : String
  chemical_communication : String
  fusion_strength : String
  semantic_bridges : List String
deriving Repr, DecidableEq

/-- Taxonomy record for limonene, transcribed from the TERPENES table in the source. -/
def limonene : Terpene := {
  name := "Limonene",
  molecular_formula := "C₁₀H₁₆",
  classification := "Monocyclic monoterpene",
  scent_profile := "Bright, citrus, sharp, zesty, fresh, sweet-tart",
  visual_character := "Crisp, radial, high-luminosity",
  primary_colors := ["Saturated yellow", "Orange", "Bright white"],
  color_specs := {
    primary_palette := "Saturated yellows (60%), oranges (25%), whites/highlights (15%)",
    saturation := "High (75-95%)",
    luminosity := "Very bright (80-90%)",
    boundaries := "Crisp transitions",
    secondary_accents := "White highlights, pale lemon",
    color_quality := "Transparent, translucent quality" },
  composition := "Concentric spirals, radial symmetry, angular forms",
  temporal_qualities := {
    volatility := "Highly volatile",
    persistence := "Rapid dissipation",
    stages := {
      fresh := {
        duration := "0-2 hours",
        description := "Sharp edges, maximal saturation, crisp geometry, intense highlights",
        saturation_adjustment := 1,
        luminosity_adjustment := 1,
        edge_quality := "Crisp" },
      active := {
        duration := "2-6 hours",
        description := "Slight softening at boundaries, saturation fading marginally",
        saturation_adjustment := 0.85,
        luminosity_adjustment := 0.95,
        edge_quality := "Mostly crisp" },
      fading := {
        duration := "6-12 hours",
        description := "Edges blur significantly, saturation drops to 40-60%, highlights diffuse",
        saturation_adjustment := 0.5,
        luminosity_adjustment := 0.85,
        edge_quality := "Soft" },
      traces := {
        duration := "12+ hours",
        description := "Ghost impressions, pale yellows, very soft edges",
        saturation_adjustment := 0.2,
        luminosity_adjustment := 0.7,
        edge_quality := "Very soft" } } },
  master_prompt := "Limonene generates crisp, radially symmetrical compositions in saturated yellows and oranges with bright white highlights. Concentric spirals emanate from a luminous center, suggesting broadcast signals of ripeness and attraction. The geometry is clean and angular—pointed edges catch sharp light. Colors transition acidically from warm yellow-orange cores to paler lemon tones at boundaries. High luminosity throughout, with minimal shadow depth. The composition captures volatility through crisp definition gradually softening at margins, as if the bright aromatic signal is dispersing into air, leaving fading citrus-colored traces.",
  chemical_communication := "Signals ripeness and food sources to insects; broadcast/attractant quality",
  fusion_strength := "Strong - works well with concepts involving visibility, broadcasting, energy",
  semantic_bridges := ["radial presence", "broadcasting", "visibility", "bright presence", "citrus warmth"] }

/-- Taxonomy record for pinene, transcribed from the TERPENES table in the source. -/
def pinene : Terpene := {
  name := "Pinene",
  molecular_formula := "C₁₀H₁₆",
  classification := "Bicyclic monoterpene",
  scent_profile := "Woody, sharp, fresh-resinous, piney, slightly medicinal, clean",
  visual_character := "Sharp, geometric, defensive, crystalline",
  primary_colors := ["Deep green", "Amber", "Cool white"],
  color_specs := {
    primary_palette := "Deep greens (50%), amber/brown (30%), cool whites (20%)",
    saturation := "Medium-high (65-80%)",
    luminosity := "Medium (50-70%)",
    boundaries := "Sharper than earthy terpenes",
    secondary_accents := "Cool gray-whites, forest-deep greens",
    color_quality := "Translucent, amber-like clarity" },
  composition := "Interlocking planes, angular forms, needle-like protrusions, layered depth",
  temporal_qualities := {
    volatility := "Moderately volatile",
    persistence := "More stable than limonene",
    stages := {
      fresh := {
        duration := "0-4 hours",
        description := "Sharp needle-like edges, deep green saturation, crisp amber highlights",
        saturation_adjustment := 1,
        luminosity_adjustment := 1,
        edge_quality := "Sharp" },
      active := {
        duration := "4-12 hours",
        description := "Slight dulling, amber becoming opaque",
        saturation_adjustment := 0.8,
        luminosity_adjustment := 0.9,
        edge_quality := "Mostly sharp" },
      fading := {
        duration := "12-24 hours",
        description := "Geometric sharpness softens, colors muting and becoming earthy",
        saturation_adjustment := 0.5,
        luminosity_adjustment := 0.75,
        edge_quality := "Soft" },
      traces := {
        duration := "24+ hours",
        description := "Pale greens and warm browns remain, edges very soft",
        saturation_adjustment := 0.25,
        luminosity_adjustment := 0.6,
        edge_quality := "Very soft" } } },
  master_prompt := "Pinene generates complex, interlocking geometric compositions in deep greens and warm ambers. Bicyclic molecular structure translates to tightly-locked angular forms suggesting both structural rigidity and defensive positioning. Needle-like protrusions catch sharp, cool light while creating layered shadow depth. Saturation is medium-high but cooler in tone than limonene. The composition reads as crystalline and precise—resinous amber captured within geometric boundaries. Sharp edges and crisp intersections gradually soften over time, with bright amber highlights becoming warmer and deeper greens mellowing into earthy forest tones as the volatile pinene disperses.",
  chemical_communication := "Signals plant defense and territorial marking; defensive/protective quality",
  fusion_strength := "Strong - works well with concepts involving precision, defense, complexity, structure",
  semantic_bridges := ["defensive geometry", "crystalline precision", "territorial marking", "rigidity", "woody depth"] }

/-- Taxonomy record for myrcene, transcribed from the TERPENES table in the source. -/
def myrcene : Terpene := {
  name := "Myrcene",
  molecular_formula := "C₁₀H₁₆",
  classification := "Acyclic monoterpene",
  scent_profile := "Earthy, musky, herbal, spicy, clove-like, slightly fruity, warm",
  visual_character := "Flowing, organic, earthy, distributed",
  primary_colors := ["Warm brown", "Ochre", "Deep green"],
  color_specs := {
    primary_palette := "Warm browns (40%), ochres/earth tones (35%), deep greens (20%), golden accents (5%)",
    saturation := "Medium-low (50-65%)",
    luminosity := "Lower (35-50%)",
    boundaries := "Soft, blurred transitions",
    secondary_accents := "Clove-warm spice tones, muted olive greens",
    color_quality := "Opaque, earthy, matte quality" },
  composition := "Flowing ribbons, directional movement, organic shapes, non-geometric",
  temporal_qualities := {
    volatility := "Moderately volatile",
    persistence := "Slightly more stable than monoterpenes",
    stages := {
      fresh := {
        duration := "0-6 hours",
        description := "Richest color saturation, slight green freshness visible",
        saturation_adjustment := 1,
        luminosity_adjustment := 1,
        edge_quality := "Soft but defined" },
      active := {
        duration := "6-12 hours",
        description := "Green tones fade, browns become dominant",
        saturation_adjustment := 0.75,
        luminosity_adjustment := 0.85,
        edge_quality := "Soft" },
      fading := {
        duration := "12-24 hours",
        description := "Color becomes muddier, warm tones persist",
        saturation_adjustment := 0.45,
        luminosity_adjustment := 0.7,
        edge_quality := "Very soft" },
      traces := {
        duration := "24+ hours",
        description := "Muted earth tones remain, very soft focus",
        saturation_adjustment := 0.2,
        luminosity_adjustment := 0.5,
        edge_quality := "Very soft" } } },
  master_prompt := "Myrcene generates flowing, organic compositions dominated by warm earths, ochres, and muted greens. The linear molecular structure translates to ribbon-like forms moving through space with clear directional vectors, undulating and flexible rather than rigid. Saturation is deliberately lower and luminosity muted, creating a grounded, earthy aesthetic. Boundaries between color zones are soft and blurred, as if the composition is diffusing its presence throughout the surrounding space like distributed herbal signals. No sharp highlights or crisp edges—instead, everything has matte, warm, musky quality. Over time, green freshness fades while warm earth tones persist, eventually becoming indistinct traces of ochre and brown.",
  chemical_communication := "Signals plant maturity and growth; distributed/expansive quality",
  fusion_strength := "Strong - works well with organic subjects, landscapes, movement, growth",
  semantic_bridges := ["flowing movement", "earthy grounding", "organic growth", "distributed presence", "natural unfolding"] }

/-- Taxonomy record for caryophyllene, transcribed from the TERPENES table in the source. -/
def caryophyllene : Terpene := {
  name := "Caryophyllene",
  molecular_formula := "C₁₅H₂₄",
  classification := "Bicyclic sesquiterpene",
  scent_profile := "Spicy, peppery, woody, warm, slightly sweet, clove-like, complex, sophisticated",
  visual_character := "Layered, complex, deep, warm-spiced",
  primary_colors := ["Deep burgundy", "Rich brown", "Warm amber"],
  color_specs := {
    primary_palette := "Deep warm browns (35%), rich reds/burgundy (25%), amber (20%), dark earth tones (20%)",
    saturation := "Medium (60-75%)",
    luminosity := "Medium-low (45-60%)",
    boundaries := "Some crisp, mostly soft",
    secondary_accents := "Deep burgundy highlights, warm copper tones",
    color_quality := "Rich, sophisticated, translucent amber" },
  composition := "Interlocking forms, layered depth, complex structural relationships",
  temporal_qualities := {
    volatility := "Low volatility - sesquiterpene",
    persistence := "Persists much longer than monoterpenes",
    stages := {
      fresh := {
        duration := "0-12 hours",
        description := "Rich saturation, deep burgundy prominent, warmest amber highlights",
        saturation_adjustment := 1,
        luminosity_adjustment := 1,
        edge_quality := "Defined" },
      active := {
        duration := "12-48 hours",
        description := "Saturation holds, colors remain sophisticated and deep",
        saturation_adjustment := 0.9,
        luminosity_adjustment := 0.95,
        edge_quality := "Defined" },
      fading := {
        duration := "48-72 hours",
        description := "Gradual dulling, warm tones becoming more uniform",
        saturation_adjustment := 0.65,
        luminosity_adjustment := 0.8,
        edge_quality := "Soft" },
      traces := {
        duration := "72+ hours",
        description := "Deep browns remain, complexity fades",
        saturation_adjustment := 0.35,
        luminosity_adjustment := 0.6,
        edge_quality := "Soft" } } },
  master_prompt := "Caryophyllene generates sophisticated, densely-layered compositions in deep burgundy, rich browns, warm amber, and dark earth tones. The bicyclic sesquiterpene structure creates interlocking forms more complex than smaller terpenes, suggesting both resilience and sophisticated molecular communication. Saturation is medium and warmth permeates throughout—no cool tones. Luminosity is deliberately held lower, creating visual weight and substance. The composition reads as layered complexity, with burgundy and amber creating depth within warm darkness. Unlike volatile monoterpenes, caryophyllene\x27s persistence translates to long-lasting visual richness—colors and complexity maintain their depth over time before gradually simplifying into muted warm earth tones.",
  chemical_communication := "Signals plant defense and stress response; complex ecological communication",
  fusion_strength := "Strong - works well with sophisticated subjects, emotional depth, complexity",
  semantic_bridges := ["sophisticated depth", "warm presence", "complex resilience", "spiced warmth", "layered intelligence"] }

/-- Taxonomy record for linalool, transcribed from the TERPENES table in the source. -/
def linalool : Terpene := {
  name := "Linalool",
  molecular_formula := "C₁₀H₁₈O",
  classification := "Acyclic monoterpene alcohol",
  scent_profile := "Floral, lavender, sweet, fresh, slightly fruity, delicate, soft, calming",
  visual_character := "Ethereal, soft, luminous, delicate",
  primary_colors := ["Soft purple", "Pale violet", "Luminous white"],
  color_specs := {
    primary_palette := "Soft purples/lavenders (40%), pale violets (20%), soft whites/cream (25%), pale pinks (15%)",
    saturation := "Low-medium (50-65%)",
    luminosity := "Very high (75-90%)",
    boundaries := "Extremely soft, watercolor-like",
    secondary_accents := "Pale lilac, cream highlights, soft mauve",
    color_quality := "Translucent, ethereal, delicate" },
  composition := "Flowing forms, graceful geometry, delicate structures",
  temporal_qualities := {
    volatility := "Moderately volatile",
    persistence := "Less dramatic than some terpenes",
    stages := {
      fresh := {
        duration := "0-4 hours",
        description := "Richest purple saturation, brightest highlights, most luminous",
        saturation_adjustment := 1,
        luminosity_adjustment := 1,
        edge_quality := "Very soft" },
      active := {
        duration := "4-12 hours",
        description := "Slight warming in tone, purples becoming more mauve",
        saturation_adjustment := 0.8,
        luminosity_adjustment := 0.95,
        edge_quality := "Very soft" },
      fading := {
        duration := "12-24 hours",
        description := "Purples fading to pale lavenders, whites, losing saturation",
        saturation_adjustment := 0.45,
        luminosity_adjustment := 0.85,
        edge_quality := "Very soft" },
      traces := {
        duration := "24+ hours",
        description := "Pale creams and ghostly lavender washes",
        saturation_adjustment := 0.15,
        luminosity_adjustment := 0.75,
        edge_quality := "Very soft" } } },
  master_prompt := "Linalool generates ethereal, luminous compositions in soft lavenders, pale violets, and creamy whites. The acyclic structure translates to graceful, flowing forms—more delicate than other terpenes due to the hydroxyl functional group adding translucence. Saturation is deliberately kept low (50-65%) while luminosity remains very high (75-90%), creating an airy, almost watercolor-like aesthetic. Boundaries are extremely soft and blurred, suggesting delicate dissolution into surrounding space. The palette maintains cool tones but reads as warm and inviting through ethereal quality. Forms appear graceful and gently communicative rather than signaling forcefully. Linalool\x27s moderate volatility means the composition gradually transitions from rich lavender luminescence to pale ghostly traces, fading delicately over extended time.",
  chemical_communication := "Signals attraction and gentle communication; calming/peaceful quality",
  fusion_strength := "Strong - works well with delicate subjects, romantic concepts, spiritual themes",
  semantic_bridges := ["ethereal presence", "graceful communication", "floral softness", "calming luminescence", "delicate transcendence"] }

/-- Taxonomy record for terpinolene, transcribed from the TERPENES table in the source. -/
def terpinolene : Terpene := {
  name := "Terpinolene",
  molecular_formula := "C₁₀H₁₆",
  classification := "Bicyclic monoterpene with exocyclic double bond",
  scent_profile := "Fresh, herbal, woody, piney, slightly fruity, complex, crisp, sophisticated",
  visual_character := "Fresh, complex, crisp, sophisticated",
  primary_colors := ["Fresh green", "Crisp white", "Soft earth"],
  color_specs := {
    primary_palette := "Fresh greens (35%), crisp whites/highlights (25%), soft earths (20%), cool grays (15%), pale yellows (5%)",
    saturation := "Medium (65-75%)",
    luminosity := "High (70-85%)",
    boundaries := "Mixed - some crisp, some soft",
    secondary_accents := "Pale sage, cool gray-greens, soft golden",
    color_quality := "Translucent in some zones, opaque in others" },
  composition := "Complex geometric forms with outward-reaching elements, balanced structure and motion",
  temporal_qualities := {
    volatility := "Volatile",
    persistence := "Dissipates relatively quickly",
    stages := {
      fresh := {
        duration := "0-3 hours",
        description := "Brightest greens, sharpest highlights, most complex saturation",
        saturation_adjustment := 1,
        luminosity_adjustment := 1,
        edge_quality := "Mixed crisp/soft" },
      active := {
        duration := "3-9 hours",
        description := "Slight softening, green intensity maintaining",
        saturation_adjustment := 0.85,
        luminosity_adjustment := 0.95,
        edge_quality := "Mostly soft" },
      fading := {
        duration := "9-18 hours",
        description := "Greens muting, sophistication fading to simpler herbal",
        saturation_adjustment := 0.55,
        luminosity_adjustment := 0.8,
        edge_quality := "Soft" },
      traces := {
        duration := "18+ hours",
        description := "Pale greens and soft grays remain",
        saturation_adjustment := 0.25,
        luminosity_adjustment := 0.65,
        edge_quality := "Very soft" } } },
  master_prompt := "Terpinolene generates sophisticated fresh compositions with complex geometric layering in vibrant greens, crisp whites, earthy undertones, and cool grays. The unusual bicyclic structure with exocyclic double bond creates visual tension between internal geometric stability and outward-reaching motion. Saturation is medium-high with high luminosity, creating crisp, airy aesthetic distinct from other fresh terpenes. The composition reads as sophisticated freshness—not simple brightness, but rather complex herbal clarity with geometric precision. Boundaries are deliberately mixed: some areas crisp and defined, others softer, reflecting structural complexity. Terpinolene\x27s volatility means the composition gradually transitions from complex geometric freshness to muted herbal tones over roughly 18 hours, with bright greens fading first.",
  chemical_communication := "Signals plant vitality and complex ecological information; sophisticated presence",
  fusion_strength := "Medium-strong - works well with intellectual/sophisticated concepts",
  semantic_bridges := ["sophisticated freshness", "complex clarity", "herbal precision", "outward expansion", "geometric grace"] }

/-- Taxonomy record for humulene, transcribed from the TERPENES table in the source. -/
def humulene : Terpene := {
  name := "Humulene",
  molecular_formula := "C₁₅H₂₄",
  classification := "Bicyclic sesquiterpene (isomer of caryophyllene)",
  scent_profile := "Hoppy, woody, earthy, spicy, herbal, complex, slightly sweet",
  visual_character := "Earthy, warm, grounded, hoppy-golden",
  primary_colors := ["Rich brown", "Golden-amber", "Earth tones"],
  color_specs := {
    primary_palette := "Rich browns (35%), golden-amber (25%), deep earth (20%), subtle greens (10%), warm accents (10%)",
    saturation := "Medium (65-75%)",
    luminosity := "Medium (50-65%)",
    boundaries := "Soft-to-medium transitions",
    secondary_accents := "Hoppy gold, muted sage, warm copper",
    color_quality := "Warm, substantial, golden translucence" },
  composition := "Complex interlocking forms, earthy grounding, natural flow",
  temporal_qualities := {
    volatility := "Low volatility - sesquiterpene",
    persistence := "Long-lasting like caryophyllene",
    stages := {
      fresh := {
        duration := "0-12 hours",
        description := "Rich golden-brown saturation, warmest amber highlights",
        saturation_adjustment := 1,
        luminosity_adjustment := 1,
        edge_quality := "Soft-defined" },
      active := {
        duration := "12-48 hours",
        description := "Saturation holding steady, complexity visible",
        saturation_adjustment := 0.88,
        luminosity_adjustment := 0.95,
        edge_quality := "Soft-defined" },
      fading := {
        duration := "48-72 hours",
        description := "Cooling from gold to neutral brown",
        saturation_adjustment := 0.65,
        luminosity_adjustment := 0.8,
        edge_quality := "Soft" },
      traces := {
        duration := "72+ hours",
        description := "Deep muted browns remain",
        saturation_adjustment := 0.35,
        luminosity_adjustment := 0.6,
        edge_quality := "Soft" } } },
  master_prompt := "Humulene generates complex, earthy compositions in golden-browns, warm earth tones, subtle herbal greens, and amber highlights. As a sesquiterpene isomer of caryophyllene, humulene shares similar structural complexity and visual density, but reads distinctly more earthy and hoppy-golden rather than deeply burgundy and spiced. Saturation is medium with medium luminosity, creating substantial aesthetic. Boundaries are softer than caryophyllene, reflecting humulene\x27s slightly different spatial configuration. The palette maintains warm golden undertones throughout. Composition suggests herbal grounding and transformation (fermentation) rather than deep mystery. Like other sesquiterpenes, humulene persists significantly longer than monoterpenes, maintaining warm golden-brown complexity over 48+ hours before gradually transitioning to simpler muted earth tones.",
  chemical_communication := "Signals hop plant presence and fermentation; grounding/transformation quality",
  fusion_strength := "Strong - works well with earthy, grounded, natural subjects",
  semantic_bridges := ["hoppy warmth", "earthy grounding", "fermentation transformation", "herbal complexity", "golden presence"] }

/-- Taxonomy record for ocimene, transcribed from the TERPENES table in the source. -/
def ocimene : Terpene := {
  name := "Ocimene",
  molecular_formula := "C₁₀H₁₆",
  classification := "Acyclic monoterpene",
  scent_profile := "Floral, sweet, herbal, fruity, slightly spicy, fresh, delicate",
  visual_character := "Delicate, flowing, pastel, energetic",
  primary_colors := ["Pale pink", "Soft green", "Creamy white"],
  color_specs := {
    primary_palette := "Soft pastels—pale pinks (25%), soft greens (25%), creamy whites (25%), pale yellows (15%), soft lavenders (10%)",
    saturation := "Low (45-60%)",
    luminosity := "High (75-90%)",
    boundaries := "Soft, watercolor-like",
    secondary_accents := "Pale sage, soft apricot, cream",
    color_quality := "Translucent, delicate, luminous" },
  composition := "Flowing graceful forms with subtle energetic quality, delicate but dynamic",
  temporal_qualities := {
    volatility := "Highly volatile",
    persistence := "Quick dissipation",
    stages := {
      fresh := {
        duration := "0-4 hours",
        description := "Richest pastel saturation, brightest highlights, most color",
        saturation_adjustment := 1,
        luminosity_adjustment := 1,
        edge_quality := "Soft" },
      active := {
        duration := "4-10 hours",
        description := "Slight softening, delicate quality increasing",
        saturation_adjustment := 0.75,
        luminosity_adjustment := 0.95,
        edge_quality := "Soft" },
      fading := {
        duration := "10-20 hours",
        description := "Pastels becoming pale and washed out",
        saturation_adjustment := 0.35,
        luminosity_adjustment := 0.85,
        edge_quality := "Very soft" },
      traces := {
        duration := "20+ hours",
        description := "Ghost-like pale washes",
        saturation_adjustment := 0.1,
        luminosity_adjustment := 0.75,
        edge_quality := "Very soft" } } },
  master_prompt := "Ocimene generates delicate, luminous compositions in soft pastels (pale pinks, soft greens, creams, pale yellows, soft lavenders). The acyclic structure with extended conjugation creates flowing, graceful forms suggesting subtle energetic quality—not rigid, but gently dynamic. Saturation is deliberately kept low (45-60%) while luminosity remains very high (75-90%), creating ethereal aesthetic. Boundaries are extremely soft and watercolor-like. The composition reads as delicate and communicative rather than forceful, with graceful motion throughout. Like other volatile monoterpenes, ocimene\x27s brightness rapidly fades over 10-20 hours, with rich pastels transitioning through pale washes to ghost-like traces before dissipating.",
  chemical_communication := "Signals plant attraction and nuanced communication; graceful/energetic quality",
  fusion_strength := "Medium-strong - works well with delicate, dynamic, artistic concepts",
  semantic_bridges := ["graceful motion", "delicate energy", "subtle communication", "pastoral softness", "energetic flow"] }

/-- Taxonomy record for sabinene, transcribed from the TERPENES table in the source. -/
def sabinene : Terpene := {
  name := "Sabinene",
  molecular_formula := "C₁₀H₁₆",
  classification := "Bicyclic monoterpene with exocyclic double bond",
  scent_profile := "Spicy, peppery, warm, woody, slightly bitter, herbal, sharp",
  visual_character := "Warm, spiced, sharp, dynamic",
  primary_colors := ["Warm brown", "Spice red", "Golden tone"],
  color_specs := {
    primary_palette := "Warm browns (30%), spice reds (25%), golden tones (20%), dark earth (15%), warm highlights (10%)",
    saturation := "Medium-high (70-80%)",
    luminosity := "Medium (55-70%)",
    boundaries := "Mixed - dynamic quality",
    secondary_accents := "Peppery red, golden amber, warm copper",
    color_quality := "Warm, spiced, translucent amber" },
  composition := "Warm geometric forms with outward-reaching quality, dynamic structural tension",
  temporal_qualities := {
    volatility := "Moderately volatile",
    persistence := "Slower dissipation than limonene",
    stages := {
      fresh := {
        duration := "0-5 hours",
        description := "Richest red and golden saturation, sharpest contrasts",
        saturation_adjustment := 1,
        luminosity_adjustment := 1,
        edge_quality := "Sharp" },
      active := {
        duration := "5-12 hours",
        description := "Saturation holding, warmth persisting",
        saturation_adjustment := 0.82,
        luminosity_adjustment := 0.92,
        edge_quality := "Mostly sharp" },
      fading := {
        duration := "12-24 hours",
        description := "Reds fading to browns, highlights duller",
        saturation_adjustment := 0.5,
        luminosity_adjustment := 0.75,
        edge_quality := "Mixed" },
      traces := {
        duration := "24+ hours",
        description := "Warm browns remain, peppery character gone",
        saturation_adjustment := 0.25,
        luminosity_adjustment := 0.6,
        edge_quality := "Soft" } } },
  master_prompt := "Sabinene generates warm, dynamically-structured compositions in spice reds, golden tones, warm browns, and rich earth tones. The bicyclic structure with exocyclic double bond creates visual tension between contained structure and outward-reaching energy. Saturation is medium-high with medium luminosity, creating substantial warm aesthetic. Boundaries are deliberately mixed—some areas crisp and sharp, others soft—reflecting dynamic structural complexity. The palette maintains active warmth throughout, suggesting pepper and spice presence. Composition reads as containing active heat rather than passive grounding. Moderately volatile nature means rich red and golden saturation gradually transitions to warmer, duller browns over 12-24 hours, with peppery sharpness fading but warm undertones persisting longer.",
  chemical_communication := "Signals spice plant presence and peppery defense; warming/dynamic quality",
  fusion_strength := "Strong - works well with warm, active, spiced concepts",
  semantic_bridges := ["active warmth", "peppery presence", "dynamic heat", "spiced complexity", "warm sharpness"] }

/-- Taxonomy record for geraniol, transcribed from the TERPENES table in the source. -/
def geraniol : Terpene := {
  name := "Geraniol",
  molecular_formula := "C₁₀H₁₈O",
  classification := "Acyclic monoterpene alcohol",
  scent_profile := "Floral, rose-like, sweet, slightly fruity, fresh, delicate, sophisticated",
  visual_character := "Romantic, warm, ethereal, sophisticated",
  primary_colors := ["Soft rose pink", "Warm cream", "Pale peach"],
  color_specs := {
    primary_palette := "Soft rose pinks (35%), warm creams (25%), pale peachy tones (20%), soft lavenders (15%), white highlights (5%)",
    saturation := "Low-medium (55-70%)",
    luminosity := "High (75-90%)",
    boundaries := "Soft romantic transitions",
    secondary_accents := "Pale rose-mauve, warm peach, soft cream",
    color_quality := "Translucent, warm, delicate" },
  composition := "Flowing graceful forms with warm presence, romantic aesthetic",
  temporal_qualities := {
    volatility := "Moderately volatile",
    persistence := "Persists slightly longer than some monoterpenes",
    stages := {
      fresh := {
        duration := "0-6 hours",
        description := "Richest rose-pink saturation, warmest peachy tones",
        saturation_adjustment := 1,
        luminosity_adjustment := 1,
        edge_quality := "Soft" },
      active := {
        duration := "6-12 hours",
        description := "Saturation holding, rose character remaining",
        saturation_adjustment := 0.85,
        luminosity_adjustment := 0.95,
        edge_quality := "Soft" },
      fading := {
        duration := "12-24 hours",
        description := "Pinks becoming paler and more mauve-like",
        saturation_adjustment := 0.5,
        luminosity_adjustment := 0.85,
        edge_quality := "Soft" },
      traces := {
        duration := "24+ hours",
        description := "Pale lavender-creams remain",
        saturation_adjustment := 0.2,
        luminosity_adjustment := 0.75,
        edge_quality := "Very soft" } } },
  master_prompt := "Geraniol generates sophisticated, romantic compositions in soft rose pinks, warm creams, pale peach tones, and soft lavenders. The acyclic alcohol structure (like linalool) creates graceful, flowing forms, but geraniol reads warmer and more romantic than linalool\x27s cool lavender. Saturation is low-medium with high luminosity, creating ethereal airy aesthetic. The composition maintains translucence throughout—forms appear delicate and attractive rather than substantial. Boundaries are soft and romantic, suggesting gentle transitions and blooming quality. Color palette emphasizes warmth within delicate framework. Moderate volatility means rich rose-pink saturation and peachy warmth persist slightly longer than some monoterpenes, gradually fading to pale lavender-creams over 12-24 hours.",
  chemical_communication := "Signals flower attraction and romantic appeal; inviting/beautiful quality",
  fusion_strength := "Strong - works well with romantic, delicate, warm concepts",
  semantic_bridges := ["romantic presence", "floral beauty", "warm delicacy", "graceful attraction", "blooming quality"] }

/-- Taxonomy record for thymol, transcribed from the TERPENES table in the source. -/
def thymol : Terpene := {
  name := "Thymol",
  molecular_formula := "C₁₀H₁₄O",
  classification := "Monoterpene phenol",
  scent_profile := "Herbal, thyme-like, warm, slightly spicy, medicinal, antiseptic, complex, intense",
  visual_character := "Structured, medicinal, herbal-sophisticated, potent",
  primary_colors := ["Complex green", "Warm brown", "Golden-amber"],
  color_specs := {
    primary_palette := "Complex greens (35%), warm browns (30%), golden-amber (20%), earth tones (15%)",
    saturation := "Medium-high (70-80%)",
    luminosity := "Medium (55-70%)",
    boundaries := "Medium sharpness - defined but not crystalline",
    secondary_accents := "Warm sage, medicinal copper, deep bronze",
    color_quality := "Warm, complex, translucent amber" },
  composition := "Structured geometric forms, herbal complexity with medicinal precision",
  temporal_qualities := {
    volatility := "Lower volatility - phenolic compound",
    persistence := "Moderate persistence",
    stages := {
      fresh := {
        duration := "0-8 hours",
        description := "Richest green and golden saturation, sharpest definition",
        saturation_adjustment := 1,
        luminosity_adjustment := 1,
        edge_quality := "Defined" },
      active := {
        duration := "8-24 hours",
        description := "Saturation holding, complexity visible",
        saturation_adjustment := 0.85,
        luminosity_adjustment := 0.95,
        edge_quality := "Defined" },
      fading := {
        duration := "24-48 hours",
        description := "Greens muting, golden tones warming and dulling",
        saturation_adjustment := 0.55,
        luminosity_adjustment := 0.8,
        edge_quality := "Soft" },
      traces := {
        duration := "48+ hours",
        description := "Warm browns, herbal character faded",
        saturation_adjustment := 0.3,
        luminosity_adjustment := 0.65,
        edge_quality := "Soft" } } },
  master_prompt := "Thymol generates structured, sophisticated compositions in complex greens, warm browns, golden-ambers, and earth tones. The phenolic aromatic ring structure creates geometric precision and structural rigidity absent in typical terpenes. Saturation is medium-high with medium luminosity, creating substantial warm aesthetic with significant visual weight. Boundaries are defined—sharp enough to suggest medicinal clarity, but not crystalline. The composition reads as intentionally potent and historically significant rather than organically growing. Warm undertones persist throughout. Unlike more volatile monoterpenes, thymol\x27s lower volatility means the composition maintains its rich complex saturation and medicinal character over 24+ hours, gradually warming and simplifying to muted earth tones over extended duration.",
  chemical_communication := "Signals antimicrobial presence and medicinal potency; structured/potent quality",
  fusion_strength := "Medium-strong - works well with intellectual, medicinal, historical concepts",
  semantic_bridges := ["medicinal potency", "structured wisdom", "herbal sophistication", "warming clarity", "intentional presence"] }

/-- The taxonomy store: association list of (identifier, record) in the definition order of the source table. -/
def TERPENES : List (String × Terpene) := [
  ("limonene", limonene),
  ("pinene", pinene),
  ("myrcene", myrcene),
  ("caryophyllene", caryophyllene),
  ("linalool", linalool),
  ("terpinolene", terpinolene),
  ("humulene", humulene),
  ("ocimene", ocimene),
  ("sabinene", sabinene),
  ("geraniol", geraniol),
  ("thymol", thymol)
]
/-- ASCII lowercase of a string, character by character, mirroring the
effect of Python str.lower on the identifiers involved. -/
def lowerStr (s : String) : String := String.mk (s.data.map Char.toLower)

/-- ASCII uppercase of a string, character by character, mirroring the
effect of Python str.upper on the stage names involved. -/
def upperStr (s : String) : String := String.mk (s.data.map Char.toUpper)

/-- Strip leading and trailing whitespace, mirroring Python str.strip. -/
def stripStr (s : String) : String :=
  String.mk (((s.data.dropWhile Char.isWhitespace).reverse.dropWhile Char.isWhitespace).reverse)

/-- Identifier normalization performed by every tool: lowercase then trim,
mirroring terpene_name.lower().strip() in the source. -/
def normalize (s : String) : String := stripStr (lowerStr s)

/-- Key lookup in the taxonomy store, mirroring the Python dict lookup. -/
def lookupTerpene (terpene_id : String) : Option Terpene :=
  (TERPENES.find? (fun p => p.1 == terpene_id)).map Prod.snd

/-- The four recognized temporal stage keys, in table order. -/
def stageKeys : List String := ["fresh", "active", "fading", "traces"]

/-- Indexing a stage map by stage name, mirroring membership test plus
indexing on the stages dict of the source. -/
def stageLookup (st : Stages) (stage : String) : Option StageRecord :=
  if stage = "fresh" then some st.fresh
  else if stage = "active" then some st.active
  else if stage = "fading" then some st.fading
  else if stage = "traces" then some st.traces
  else none

/-- Result record of get_terpene is the full terpene record; errors carry
the message of the JSON error object. -/
def get_terpene (terpene_name : String) : Except String Terpene :=
  let terpene_id := normalize terpene_name
  match lookupTerpene terpene_id with
  | none => Except.error ("Terpene \x27" ++ terpene_name ++ "\x27 not found")
  | some t => Except.ok t

/-- Success record of get_master_prompt. -/
structure MasterPromptResult where
  terpene : String
  temporal_stage : String
  master_prompt : String
  stage_adjustments : StageRecord
deriving Repr, DecidableEq

/-- get_master_prompt from the source: resolves the terpene; when the stage
differs from fresh and is a recognized stage key, appends the bracketed
stage note to the master prompt and returns that stage record; otherwise
returns the unmodified master prompt with the fresh stage record. -/
def get_master_prompt (terpene_name : String) (temporal_stage : String) :
    Except String MasterPromptResult :=
  let terpene_id := normalize terpene_name
  match lookupTerpene terpene_id with
  | none => Except.error ("Terpene \x27" ++ terpene_name ++ "\x27 not found")
  | some t =>
    if temporal_stage ≠ "fresh" then
      match stageLookup t.temporal_qualities.stages temporal_stage with
      | some stage_data =>
        Except.ok { terpene := t.name,
                    temporal_stage := temporal_stage,
                    master_prompt := t.master_prompt ++ "\n\n[" ++
                      upperStr temporal_stage ++ " STAGE: " ++
                      stage_data.description ++ "]",
                    stage_adjustments := stage_data }
      | none =>
        Except.ok { terpene := t.name,
                    temporal_stage := temporal_stage,
                    master_prompt := t.master_prompt,
                    stage_adjustments := t.temporal_qualities.stages.fresh }
    else
      Except.ok { terpene := t.name,
                  temporal_stage := temporal_stage,
                  master_prompt := t.master_prompt,
                  stage_adjustments := t.temporal_qualities.stages.fresh }

/-- The temporal_adjustments sub-record added to a palette. -/
structure TemporalAdjustments where
  saturation_multiplier : ℚ
  luminosity_multiplier : ℚ
  edge_quality : String
  stage_description : String
deriving Repr, DecidableEq

/-- Success record of get_color_palette: the copied color_specs plus the
optional temporal_adjustments key. -/
structure PaletteResult where
  terpene : String
  temporal_stage : String
  color_specs : ColorSpecs
  temporal_adjustments : Option TemporalAdjustments
deriving Repr, DecidableEq

/-- get_color_palette from the source: resolves the terpene; when the
stage is a recognized key, the palette carries a temporal_adjustments
sub-record built from that stage record; otherwise no such key is added. -/
def get_color_palette (terpene_name : String) (temporal_stage : String) :
    Except String PaletteResult :=
  let terpene_id := normalize terpene_name
  match lookupTerpene terpene_id with
  | none => Except.error ("Terpene \x27" ++ terpene_name ++ "\x27 not found")
  | some t =>
    match stageLookup t.temporal_qualities.stages temporal_stage with
    | some stage_data =>
      Except.ok { terpene := t.name,
                  temporal_stage := temporal_stage,
                  color_specs := t.color_specs,
                  temporal_adjustments := some
                    { saturation_multiplier := stage_data.saturation_adjustment,
                      luminosity_multiplier := stage_data.luminosity_adjustment,
                      edge_quality := stage_data.edge_quality,
                      stage_description := stage_data.description } }
    | none =>
      Except.ok { terpene := t.name,
                  temporal_stage := temporal_stage,
                  color_specs := t.color_specs,
                  temporal_adjustments := none }

/-- The inner comparison table of compare_terpenes: paired values under
parallel terpene1/terpene2 positions. -/
structure ComparisonDetail where
  scent_profiles : String × String
  visual_character : String × String
  primary_colors : List String × List String
  saturation_range : String × String
  luminosity_range : String × String
  volatility : String × String
  composition_style : String × String
deriving Repr, DecidableEq

/-- Success record of compare_terpenes. -/
structure Comparison where
  terpene1 : String
  terpene2 : String
  comparison : ComparisonDetail
deriving Repr, DecidableEq

/-- compare_terpenes from the source: resolves both identifiers;
if either is missing it returns the single combined error record. -/
def compare_terpenes (terpene1_name terpene2_name : String) :
    Except String Comparison :=
  let t1_id := normalize terpene1_name
  let t2_id := normalize terpene2_name
  match lookupTerpene t1_id, lookupTerpene t2_id with
  | some t1, some t2 =>
    Except.ok { terpene1 := t1.name,
                terpene2 := t2.name,
                comparison :=
                  { scent_profiles := (t1.scent_profile, t2.scent_profile),
                    visual_character := (t1.visual_character, t2.visual_character),
                    primary_colors := (t1.primary_colors, t2.primary_colors),
                    saturation_range := (t1.color_specs.saturation, t2.color_specs.saturation),
                    luminosity_range := (t1.color_specs.luminosity, t2.color_specs.luminosity),
                    volatility := (t1.temporal_qualities.volatility, t2.temporal_qualities.volatility),
                    composition_style := (t1.composition, t2.composition) } }
  | _, _ => Except.error "One or both terpenes not found"

/-- Whether pat is a prefix of the character list s. -/
def isPrefixList : List Char → List Char → Bool
  | [], _ => true
  | _ :: _, [] => false
  | a :: as, b :: bs => a == b && isPrefixList as bs

/-- Whether pat occurs as a contiguous run inside the character list. -/
def containsSubList (pat : List Char) : List Char → Bool
  | [] => isPrefixList pat []
  | c :: cs => isPrefixList pat (c :: cs) || containsSubList pat cs

/-- Literal substring containment, mirroring the Python `in` operator on
strings. -/
def strContainsSub (s pat : String) : Bool :=
  containsSubList pat.data s.data

/-- Split a character list at every occurrence of the separator. -/
def splitCh (sep : Char) : List Char → List (List Char)
  | [] => [[]]
  | c :: cs =>
    let r := splitCh sep cs
    if c == sep then [] :: r
    else match r with
      | [] => [[c]]
      | a :: rest => (c :: a) :: rest

/-- Split a keyword set on the pipe separator, mirroring split("|"). -/
def splitPipe (s : String) : List String := (splitCh (Char.ofNat 0x7c) s.data).map String.mk

/-- The ordered keyword associations of suggest_terpene_for_concept,
each a pipe-delimited keyword set paired with a terpene identifier. -/
def keyword_map : List (String × String) := [
  ("bright|visible|broadcast|radiant|citrus|energy", "limonene"),
  ("defense|defensive|barrier|fortress|structure|precise", "pinene"),
  ("flow|organic|movement|dance|growth|earthy", "myrcene"),
  ("complex|sophisticated|depth|intelligent|spiced|warm", "caryophyllene"),
  ("delicate|ethereal|soft|calming|spiritual|romantic", "linalool"),
  ("fresh|crisp|sophisticated|intellectual|herbal", "terpinolene"),
  ("grounded|hoppy|ferment|transform|natural", "humulene"),
  ("delicate|flowing|graceful|energetic|artistic", "ocimene"),
  ("warm|spiced|dynamic|heat|pepper", "sabinene"),
  ("romantic|floral|beautiful|inviting|blooming", "geraniol"),
  ("medicinal|potent|herbal|historical|intentional", "thymol")
]

/-- One suggestion record: keyword matches carry a reason, fallback
entries carry the fusion_strength instead. -/
structure Suggestion where
  terpene : String
  terpene_id : String
  reason : Option String
  fusion_strength : Option String
deriving Repr, DecidableEq

/-- Result record of suggest_terpene_for_concept. -/
structure SuggestionResult where
  concept : String
  suggestions : List Suggestion
  note : String
deriving Repr, DecidableEq

/-- suggest_terpene_for_concept from the source: lower-cases the concept,
fires every keyword association whose set has a keyword contained in the
concept, and on zero matches falls back to the first five store entries
annotated with fusion_strength. -/
def suggest_terpene_for_concept (concept : String) : SuggestionResult :=
  let concept_lower := lowerStr concept
  let matched := keyword_map.filterMap (fun kv =>
    if (splitPipe kv.1).any (fun kw => strContainsSub concept_lower kw) then
      match lookupTerpene kv.2 with
      | some t => some { terpene := t.name,
                         terpene_id := kv.2,
                         reason := some ("Concept contains \x27" ++ concept ++
                           "\x27 which aligns with " ++ t.visual_character ++ " aesthetic"),
                         fusion_strength := none }
      | none => none
    else none)
  let suggestions :=
    if matched.isEmpty then
      (TERPENES.take 5).map (fun p =>
        { terpene := p.2.name,
          terpene_id := p.1,
          reason := none,
          fusion_strength := some p.2.fusion_strength })
    else matched
  { concept := concept,
    suggestions := suggestions,
    note := "These are suggestions based on semantic bridges. Try different terpenes to see which works best for your specific intent." }

/-- The application sub-record of apply_intensity_modifier. -/
structure Application where
  saturation_modifier : ℚ
  luminosity_modifier : ℚ
  edge_softness_modifier : ℚ
  composition_emphasis : String
deriving Repr, DecidableEq

/-- Success record of apply_intensity_modifier. The purely textual
intensity_description caption of the source is not modelled; no verified
property concerns it. -/
structure IntensityResult where
  terpene : String
  intensity_level : ℚ
  application : Application
deriving Repr, DecidableEq

/-- apply_intensity_modifier from the source: rejects an intensity outside
the inclusive unit interval before resolving the identifier, then derives
the linear application parameters. -/
def apply_intensity_modifier (terpene_name : String) (intensity : ℚ) :
    Except String IntensityResult :=
  if ¬ (0 ≤ intensity ∧ intensity ≤ 1) then
    Except.error "Intensity must be between 0 and 1"
  else
    let terpene_id := normalize terpene_name
    match lookupTerpene terpene_id with
    | none => Except.error ("Terpene \x27" ++ terpene_name ++ "\x27 not found")
    | some t =>
      Except.ok { terpene := t.name,
                  intensity_level := intensity,
                  application :=
                    { saturation_modifier := intensity,
                      luminosity_modifier := 0.7 + intensity * 0.3,
                      edge_softness_modifier := 1 - intensity * 0.5,
                      composition_emphasis :=
                        if intensity < 0.3 then "Minimal"
                        else if intensity < 0.7 then "Balanced"
                        else "Maximum" } }


/-! ## Derived predicates and helper lemmas -/

/-- A rational lies in the closed unit interval. -/
abbrev inUnit (q : ℚ) : Prop := 0 ≤ q ∧ q ≤ 1

/-- Monotonic decay invariant of one four-stage map: fresh adjustments are
one, all adjustments lie in the unit interval, and both adjustment
sequences are non-increasing in the order fresh, active, fading, traces. -/
abbrev monotonicDecay (st : Stages) : Prop :=
  st.fresh.saturation_adjustment = 1 ∧
  st.fresh.luminosity_adjustment = 1 ∧
  inUnit st.fresh.saturation_adjustment ∧ inUnit st.active.saturation_adjustment ∧
  inUnit st.fading.saturation_adjustment ∧ inUnit st.traces.saturation_adjustment ∧
  inUnit st.fresh.luminosity_adjustment ∧ inUnit st.active.luminosity_adjustment ∧
  inUnit st.fading.luminosity_adjustment ∧ inUnit st.traces.luminosity_adjustment ∧
  st.active.saturation_adjustment ≤ st.fresh.saturation_adjustment ∧
  st.fading.saturation_adjustment ≤ st.active.saturation_adjustment ∧
  st.traces.saturation_adjustment ≤ st.fading.saturation_adjustment ∧
  st.active.luminosity_adjustment ≤ st.fresh.luminosity_adjustment ∧
  st.fading.luminosity_adjustment ≤ st.active.luminosity_adjustment ∧
  st.traces.luminosity_adjustment ≤ st.fading.luminosity_adjustment

/-- A stage name outside the four recognized keys indexes no stage. -/
theorem stageLookup_none_of_not_mem (st : Stages) (stage : String)
    (h : stage ∉ stageKeys) : stageLookup st stage = none := by
  simp only [stageKeys, List.mem_cons, List.not_mem_nil, or_false, not_or] at h
  obtain ⟨h1, h2, h3, h4⟩ := h
  simp [stageLookup, h1, h2, h3, h4]

/-- filterMap of a function returning none everywhere on the list is empty. -/
theorem filterMapNilOf {α β : Type} (f : α → Option β) :
    ∀ l : List α, (∀ x ∈ l, f x = none) → l.filterMap f = []
  | [], _ => rfl
  | a :: l, h => by
    have ha := h a (List.mem_cons_self a l)
    have hrest := filterMapNilOf f l (fun x hx => h x (List.mem_cons_of_mem a hx))
    simp [List.filterMap_cons, ha, hrest]

/-- any of a predicate false everywhere on the list is false. -/
theorem anyFalseOf {α : Type} (p : α → Bool) :
    ∀ l : List α, (∀ x ∈ l, p x = false) → l.any p = false
  | [], _ => rfl
  | a :: l, h => by
    have ha := h a (List.mem_cons_self a l)
    have hrest := anyFalseOf p l (fun x hx => h x (List.mem_cons_of_mem a hx))
    simp [List.any_cons, ha, hrest]

/-- The invalid-intensity message differs from every not-found message. -/
theorem intensity_msg_ne_notfound (s : String) :
    ("Intensity must be between 0 and 1" : String) ≠
      "Terpene \x27" ++ s ++ "\x27 not found" := by
  intro he
  have hd := congrArg (fun t : String => t.data.head?) he
  have h1 : ("Intensity must be between 0 and 1" : String).data.head? = some 'I' := rfl
  have h2 : (("Terpene \x27" ++ s ++ "\x27 not found" : String)).data.head? = some 'T' := rfl
  simp only [h1, h2] at hd
  exact absurd hd (by decide)

/-- Shared error shape of compare_terpenes when any side is missing. -/
theorem compare_missing_helper (a b : String)
    (h : lookupTerpene (normalize a) = none ∨ lookupTerpene (normalize b) = none) :
    compare_terpenes a b = Except.error "One or both terpenes not found" := by
  cases h1 : lookupTerpene (normalize a) <;> cases h2 : lookupTerpene (normalize b) <;>
    simp_all [compare_terpenes]

/-! ## Claim theorems -/

/-- C1: For every terpene record in the taxonomy store, the fresh stage has
saturation_adjustment and luminosity_adjustment equal to one, every
adjustment value lies in the unit interval, and both adjustment sequences
are non-increasing in the order fresh, active, fading, traces. -/
theorem terpene_stage_decay_invariant :
    ∀ p ∈ TERPENES, monotonicDecay p.2.temporal_qualities.stages := by
  intro p hp
  simp only [TERPENES, List.mem_cons, List.not_mem_nil, or_false] at hp
  rcases hp with h|h|h|h|h|h|h|h|h|h|h <;> subst h <;>
    norm_num [monotonicDecay, inUnit, limonene, pinene, myrcene, caryophyllene,
      linalool, terpinolene, humulene, ocimene, sabinene, geraniol, thymol]

/-- Witness for C1 at the limonene record. -/
theorem terpene_stage_decay_invariant_witness :
    monotonicDecay limonene.temporal_qualities.stages := by
  have h := terpene_stage_decay_invariant ("limonene", limonene) (by simp [TERPENES])
  exact h

/-- C2: For a resolving identifier, a fresh or unrecognized stage yields
the unmodified master prompt with the fresh stage record, while active,
fading or traces yields the master prompt with the bracketed stage note
appended and that stage record as the adjustments. -/
theorem get_master_prompt_stage_behaviour (terpene_name temporal_stage : String)
    (t : Terpene) (h : lookupTerpene (normalize terpene_name) = some t) :
    ((temporal_stage = "fresh" ∨ temporal_stage ∉ stageKeys) →
      get_master_prompt terpene_name temporal_stage =
        Except.ok { terpene := t.name, temporal_stage := temporal_stage,
                    master_prompt := t.master_prompt,
                    stage_adjustments := t.temporal_qualities.stages.fresh }) ∧
    (∀ sd, temporal_stage ∈ (["active", "fading", "traces"] : List String) →
      stageLookup t.temporal_qualities.stages temporal_stage = some sd →
      get_master_prompt terpene_name temporal_stage =
        Except.ok { terpene := t.name, temporal_stage := temporal_stage,
                    master_prompt := t.master_prompt ++ "\n\n[" ++
                      upperStr temporal_stage ++ " STAGE: " ++ sd.description ++ "]",
                    stage_adjustments := sd }) := by
  constructor
  · rintro (hfresh | hnot)
    · subst hfresh
      simp [get_master_prompt, h]
    · have hne : temporal_stage ≠ "fresh" := by
        intro he; exact hnot (by simp [he, stageKeys])
      have hsl := stageLookup_none_of_not_mem t.temporal_qualities.stages temporal_stage hnot
      simp [get_master_prompt, h, hne, hsl]
  · intro sd hmem hsl
    have hne : temporal_stage ≠ "fresh" := by
      simp only [List.mem_cons, List.not_mem_nil, or_false] at hmem
      rcases hmem with h1|h1|h1 <;> subst h1 <;> decide
    simp [get_master_prompt, h, hne, hsl]

/-- Witness for C2 at limonene in the fading stage. -/
theorem get_master_prompt_stage_behaviour_witness :
    get_master_prompt "limonene" "fading" =
      Except.ok { terpene := limonene.name, temporal_stage := "fading",
                  master_prompt := limonene.master_prompt ++ "\n\n[" ++
                    upperStr "fading" ++ " STAGE: " ++
                    limonene.temporal_qualities.stages.fading.description ++ "]",
                  stage_adjustments := limonene.temporal_qualities.stages.fading } :=
  (get_master_prompt_stage_behaviour "limonene" "fading" limonene rfl).2
    limonene.temporal_qualities.stages.fading (by decide) rfl

/-- C3: For a resolving identifier, a recognized stage yields the copied
color_specs together with a temporal_adjustments sub-record built from
that stage record, while an unrecognized stage yields the copied
color_specs with no temporal_adjustments at all. -/
theorem get_color_palette_stage_behaviour (terpene_name temporal_stage : String)
    (t : Terpene) (h : lookupTerpene (normalize terpene_name) = some t) :
    (∀ sd, temporal_stage ∈ stageKeys →
      stageLookup t.temporal_qualities.stages temporal_stage = some sd →
      get_color_palette terpene_name temporal_stage =
        Except.ok { terpene := t.name, temporal_stage := temporal_stage,
                    color_specs := t.color_specs,
                    temporal_adjustments := some
                      { saturation_multiplier := sd.saturation_adjustment,
                        luminosity_multiplier := sd.luminosity_adjustment,
                        edge_quality := sd.edge_quality,
                        stage_description := sd.description } }) ∧
    (temporal_stage ∉ stageKeys →
      get_color_palette terpene_name temporal_stage =
        Except.ok { terpene := t.name, temporal_stage := temporal_stage,
                    color_specs := t.color_specs,
                    temporal_adjustments := none }) := by
  constructor
  · intro sd _ hsl
    simp [get_color_palette, h, hsl]
  · intro hnot
    have hsl := stageLookup_none_of_not_mem t.temporal_qualities.stages temporal_stage hnot
    simp [get_color_palette, h, hsl]

/-- Witness for C3 at limonene with an unrecognized stage. -/
theorem get_color_palette_stage_behaviour_witness :
    get_color_palette "limonene" "bogus_stage" =
      Except.ok { terpene := limonene.name, temporal_stage := "bogus_stage",
                  color_specs := limonene.color_specs,
                  temporal_adjustments := none } :=
  (get_color_palette_stage_behaviour "limonene" "bogus_stage" limonene rfl).2 (by decide)

/-- C4: For a resolving identifier and an intensity in the unit interval,
apply_intensity_modifier succeeds with saturation_modifier equal to the
intensity, luminosity_modifier 0.7 + intensity * 0.3, edge_softness
1 - intensity * 0.5, and the emphasis Minimal below 0.3, Maximum from 0.7
upward, and Balanced between. -/
theorem apply_intensity_modifier_formulas (terpene_name : String) (intensity : ℚ)
    (t : Terpene) (h : lookupTerpene (normalize terpene_name) = some t)
    (h0 : 0 ≤ intensity) (h1 : intensity ≤ 1) :
    ∃ r, apply_intensity_modifier terpene_name intensity = Except.ok r ∧
      r.terpene = t.name ∧
      r.intensity_level = intensity ∧
      r.application.saturation_modifier = intensity ∧
      r.application.luminosity_modifier = 7/10 + intensity * (3/10) ∧
      r.application.edge_softness_modifier = 1 - intensity * (1/2) ∧
      (intensity < 3/10 → r.application.composition_emphasis = "Minimal") ∧
      (7/10 ≤ intensity → r.application.composition_emphasis = "Maximum") ∧
      (3/10 ≤ intensity → intensity < 7/10 → r.application.composition_emphasis = "Balanced") := by
  refine ⟨{ terpene := t.name, intensity_level := intensity,
            application :=
              { saturation_modifier := intensity,
                luminosity_modifier := 0.7 + intensity * 0.3,
                edge_softness_modifier := 1 - intensity * 0.5,
                composition_emphasis :=
                  if intensity < 0.3 then "Minimal"
                  else if intensity < 0.7 then "Balanced"
                  else "Maximum" } }, ?_, rfl, rfl, rfl, by norm_num, by norm_num, ?_, ?_, ?_⟩
  · simp [apply_intensity_modifier, h0, h1, h]
  · intro hlt
    rw [if_pos (by norm_num at hlt ⊢; linarith)]
  · intro hge
    rw [if_neg (by norm_num; linarith), if_neg (by norm_num; linarith)]
  · intro hge hlt
    rw [if_neg (by norm_num; linarith), if_pos (by norm_num at hlt ⊢; linarith)]

/-- Witness for C4 at limonene with intensity one half. -/
theorem apply_intensity_modifier_formulas_witness :
    ∃ r, apply_intensity_modifier "limonene" (1/2 : ℚ) = Except.ok r ∧
      r.application.luminosity_modifier = 17/20 ∧
      r.application.composition_emphasis = "Balanced" := by
  obtain ⟨r, hr, _, _, _, hl, _, _, _, hb⟩ :=
    apply_intensity_modifier_formulas "limonene" (1/2) limonene rfl
      (by norm_num) (by norm_num)
  exact ⟨r, hr, by rw [hl]; norm_num, hb (by norm_num) (by norm_num)⟩

/-- C5: An intensity strictly below zero or strictly above one always
fails with the invalid-intensity error, with no clamping, while an
intensity inside the unit interval together with a stored identifier
succeeds. -/
theorem apply_intensity_modifier_range_check (terpene_name : String) (intensity : ℚ) :
    ((intensity < 0 ∨ 1 < intensity) →
      apply_intensity_modifier terpene_name intensity =
        Except.error "Intensity must be between 0 and 1") ∧
    (∀ t, lookupTerpene (normalize terpene_name) = some t →
      0 ≤ intensity → intensity ≤ 1 →
      ∃ r, apply_intensity_modifier terpene_name intensity = Except.ok r) := by
  constructor
  · intro hout
    have hc : ¬ (0 ≤ intensity ∧ intensity ≤ 1) := by
      rintro ⟨ha, hb⟩; rcases hout with h|h <;> linarith
    simp [apply_intensity_modifier, hc]
  · intro t ht h0 h1
    refine ⟨{ terpene := t.name, intensity_level := intensity,
              application :=
                { saturation_modifier := intensity,
                  luminosity_modifier := 0.7 + intensity * 0.3,
                  edge_softness_modifier := 1 - intensity * 0.5,
                  composition_emphasis :=
                    if intensity < 0.3 then "Minimal"
                    else if intensity < 0.7 then "Balanced"
                    else "Maximum" } }, ?_⟩
    simp [apply_intensity_modifier, h0, h1, ht]

/-- Witness for C5 at the intensities of the specification example. -/
theorem apply_intensity_modifier_range_check_witness :
    apply_intensity_modifier "limonene" (-0.1 : ℚ) =
      Except.error "Intensity must be between 0 and 1" ∧
    apply_intensity_modifier "limonene" (1.1 : ℚ) =
      Except.error "Intensity must be between 0 and 1" ∧
    ∃ r, apply_intensity_modifier "limonene" (0.5 : ℚ) = Except.ok r := by
  refine ⟨(apply_intensity_modifier_range_check "limonene" (-0.1)).1 (Or.inl (by norm_num)),
          (apply_intensity_modifier_range_check "limonene" (1.1)).1 (Or.inr (by norm_num)),
          (apply_intensity_modifier_range_check "limonene" (0.5)).2 limonene rfl
            (by norm_num) (by norm_num)⟩

/-- C6 counterexample: with limonene present and the second identifier
missing, the failure is the combined message, which does not contain the
missing identifier, so the failure does not name the missing side. -/
theorem compare_terpenes_error_not_naming_side :
    (lookupTerpene (normalize "limonene")).isSome = true ∧
    (lookupTerpene (normalize "nonexistent")).isSome = false ∧
    compare_terpenes "limonene" "nonexistent" =
      Except.error "One or both terpenes not found" ∧
    strContainsSub "One or both terpenes not found" "nonexistent" = false :=
  ⟨rfl, rfl, rfl, rfl⟩

/-- C6 amended: when exactly one of the two identifiers resolves,
compare_terpenes still returns the single combined failure record, not a
failure naming the missing side. -/
theorem compare_terpenes_combined_error_one_missing (a b : String)
    (h : (lookupTerpene (normalize a)).isSome ≠ (lookupTerpene (normalize b)).isSome) :
    compare_terpenes a b = Except.error "One or both terpenes not found" := by
  apply compare_missing_helper
  cases h1 : lookupTerpene (normalize a) <;> cases h2 : lookupTerpene (normalize b) <;>
    simp_all

/-- Witness for the amended C6 with only the second side missing. -/
theorem compare_terpenes_combined_error_one_missing_witness :
    compare_terpenes "limonene" "nonexistent" =
      Except.error "One or both terpenes not found" :=
  compare_terpenes_combined_error_one_missing "limonene" "nonexistent" (by decide)

/-- C7: whenever at least one of the two normalized identifiers is not a
store key, compare_terpenes returns exactly the single combined failure
record, with no partial comparison data. -/
theorem compare_terpenes_combined_error (a b : String)
    (h : lookupTerpene (normalize a) = none ∨ lookupTerpene (normalize b) = none) :
    compare_terpenes a b = Except.error "One or both terpenes not found" :=
  compare_missing_helper a b h

/-- Witness for C7 with both identifiers missing. -/
theorem compare_terpenes_combined_error_witness :
    compare_terpenes "nonexistent" "alsomissing" =
      Except.error "One or both terpenes not found" :=
  compare_terpenes_combined_error "nonexistent" "alsomissing" (Or.inl rfl)

/-- C8: lookup is case-insensitive and whitespace-trimmed on every stored
identifier, and a non-resolving input fails with a message carrying the
original, non-normalized input text. -/
theorem get_terpene_normalization_and_error :
    (∀ p ∈ TERPENES,
      get_terpene (upperStr p.1) = get_terpene p.1 ∧
      get_terpene (" " ++ p.1 ++ " ") = get_terpene p.1) ∧
    (∀ s, lookupTerpene (normalize s) = none →
      get_terpene s = Except.error ("Terpene \x27" ++ s ++ "\x27 not found")) := by
  constructor
  · intro p hp
    simp only [TERPENES, List.mem_cons, List.not_mem_nil, or_false] at hp
    rcases hp with h|h|h|h|h|h|h|h|h|h|h <;> subst h <;> exact ⟨rfl, rfl⟩
  · intro s hs
    simp [get_terpene, hs]

/-- Witness for C8 at limonene and a missing identifier. -/
theorem get_terpene_normalization_and_error_witness :
    get_terpene "LIMONENE" = get_terpene "limonene" ∧
    get_terpene " limonene " = get_terpene "limonene" ∧
    get_terpene "nonexistent" = Except.error "Terpene \x27nonexistent\x27 not found" := by
  have h1 := (get_terpene_normalization_and_error.1 ("limonene", limonene) (by simp [TERPENES]))
  have h2 := get_terpene_normalization_and_error.2 "nonexistent" rfl
  exact ⟨h1.1, h1.2, h2⟩

/-- C9: when no keyword association fires on the lower-cased concept,
suggest_terpene_for_concept returns exactly the first five terpenes in
store definition order, each carrying its fusion_strength and no reason. -/
theorem suggest_fallback_first_five (concept : String)
    (h : ∀ kv ∈ keyword_map, ∀ kw ∈ splitPipe kv.1,
      strContainsSub (lowerStr concept) kw = false) :
    (suggest_terpene_for_concept concept).suggestions =
      [ { terpene := limonene.name, terpene_id := "limonene",
          reason := none, fusion_strength := some limonene.fusion_strength },
        { terpene := pinene.name, terpene_id := "pinene",
          reason := none, fusion_strength := some pinene.fusion_strength },
        { terpene := myrcene.name, terpene_id := "myrcene",
          reason := none, fusion_strength := some myrcene.fusion_strength },
        { terpene := caryophyllene.name, terpene_id := "caryophyllene",
          reason := none, fusion_strength := some caryophyllene.fusion_strength },
        { terpene := linalool.name, terpene_id := "linalool",
          reason := none, fusion_strength := some linalool.fusion_strength } ] := by
  have hmatched : ∀ kv ∈ keyword_map,
      ((splitPipe kv.1).any (fun kw => strContainsSub (lowerStr concept) kw)) = false := by
    intro kv hkv
    exact anyFalseOf _ _ (fun kw hkw => h kv hkv kw hkw)
  have hnil : List.filterMap (fun kv : String × String =>
      if (splitPipe kv.1).any (fun kw => strContainsSub (lowerStr concept) kw) then
        match lookupTerpene kv.2 with
        | some t => some ({ terpene := t.name, terpene_id := kv.2,
                            reason := some ("Concept contains \x27" ++ concept ++
                              "\x27 which aligns with " ++ t.visual_character ++ " aesthetic"),
                            fusion_strength := none } : Suggestion)
        | none => none
      else none) keyword_map = [] :=
    filterMapNilOf _ _ (fun kv hkv => by simp [hmatched kv hkv])
  simp only [suggest_terpene_for_concept]
  rw [hnil]
  simp [TERPENES]

/-- Witness for C9 at the empty concept. -/
theorem suggest_fallback_first_five_witness :
    (suggest_terpene_for_concept "").suggestions =
      [ { terpene := limonene.name, terpene_id := "limonene",
          reason := none, fusion_strength := some limonene.fusion_strength },
        { terpene := pinene.name, terpene_id := "pinene",
          reason := none, fusion_strength := some pinene.fusion_strength },
        { terpene := myrcene.name, terpene_id := "myrcene",
          reason := none, fusion_strength := some myrcene.fusion_strength },
        { terpene := caryophyllene.name, terpene_id := "caryophyllene",
          reason := none, fusion_strength := some caryophyllene.fusion_strength },
        { terpene := linalool.name, terpene_id := "linalool",
          reason := none, fusion_strength := some linalool.fusion_strength } ] :=
  suggest_fallback_first_five "" (by decide)

/-- C10: the intensity range check precedes identifier resolution, so a
missing identifier with an out-of-range intensity yields the
invalid-intensity error, not the not-found error. -/
theorem intensity_check_precedes_lookup (terpene_name : String) (intensity : ℚ)
    (_hname : lookupTerpene (normalize terpene_name) = none)
    (hint : intensity < 0 ∨ 1 < intensity) :
    apply_intensity_modifier terpene_name intensity =
      Except.error "Intensity must be between 0 and 1" ∧
    apply_intensity_modifier terpene_name intensity ≠
      Except.error ("Terpene \x27" ++ terpene_name ++ "\x27 not found") := by
  have hc : ¬ (0 ≤ intensity ∧ intensity ≤ 1) := by
    rintro ⟨ha, hb⟩; rcases hint with h|h <;> linarith
  have heq : apply_intensity_modifier terpene_name intensity =
      Except.error "Intensity must be between 0 and 1" := by
    simp [apply_intensity_modifier, hc]
  refine ⟨heq, ?_⟩
  rw [heq]
  intro hcontra
  exact intensity_msg_ne_notfound terpene_name (by injection hcontra)

/-- Witness for C10 at a missing identifier and intensity above one. -/
theorem intensity_check_precedes_lookup_witness :
    apply_intensity_modifier "nonexistent" (1.1 : ℚ) =
      Except.error "Intensity must be between 0 and 1" ∧
    apply_intensity_modifier "nonexistent" (1.1 : ℚ) ≠
      Except.error "Terpene \x27nonexistent\x27 not found" := by
  have h := intensity_check_precedes_lookup "nonexistent" (1.1) rfl (Or.inr (by norm_num))
  exact ⟨h.1, h.2⟩

end TerpeneVocab
